import Mathlib

/-!
Shallow embedding of the jellyfin-tui navigation core
(`cmd/jellyfin-tui/main.go` and the `jellyfin` client package).

The bubbletea / bubbles widget toolkit and the OS (file system, JSON
codec of the standard library) are external collaborators; they are
modelled at their interface boundary:

* a `list.Model` is its item slice plus a cursor; `Update` moves the
  cursor on the navigation keys and leaves the list unchanged otherwise;
  `SelectedItem` is the item under the cursor; `SetItems` replaces the
  slice;
* a `textinput.Model` is its value plus a focus flag; `Update` appends a
  printable rune to the value when focused and ignores everything else;
* the file system is a home-directory lookup, a write-permission flag
  and a map from paths to file contents; file contents are kept at the
  JSON-AST level (`encoding/json` marshalling of a struct is modelled as
  building the corresponding JSON object, unmarshalling as reading it
  back).

Machine integers (`IndexNumber` is a Go `int`) are modelled as `Int`;
no arithmetic in the translated code can overflow 64 bits.
-/

/-- Go struct `Config` from main.go: the two-field connection profile. -/
structure Config where
  ServerURL : String
  APIKey : String
deriving DecidableEq, Repr

/-- Go struct `MediaItem` from main.go (the app-side record, not the client's).
The Go field `Type` is spelled `ItemType` because `Type` is reserved. -/
structure MediaItem where
  ID : String := ""
  ItemTitle : String := ""
  ItemType : String := ""
  ImageURL : String := ""
  StreamURL : String := ""
  ParentID : String := ""
  IndexNumber : Int := 0
  DisplayTitle : String := ""
deriving DecidableEq, Repr

/-- Method `MediaItem.Title()` from main.go: display title when set, else the raw title. -/
def MediaItem.title (m : MediaItem) : String :=
  if m.DisplayTitle ≠ "" then m.DisplayTitle else m.ItemTitle

/-- Go struct `jellyfin.MediaItem` from the client package: the decoded server record.
A JSON response lacking `IndexNumber` leaves the Go zero value `0`.
The Go field `Type` is spelled `ItemType` because `Type` is reserved. -/
structure JFItem where
  ID : String := ""
  Name : String := ""
  ItemType : String := ""
  MediaType : String := ""
  IndexNumber : Int := 0
deriving DecidableEq, Repr

/-- Events consumed by `Model.Update`: key presses, window resizes, and the
typed result messages produced by the fetch commands
(`fetchMoviesMsg` … `searchResultsMsg`, `errorMsg`). -/
inductive Msg where
  | key (s : String)
  | winSize (w h : Int)
  | fetchMoviesResult (items : List MediaItem)
  | fetchTVShowsResult (items : List MediaItem)
  | fetchSeasonsResult (items : List MediaItem)
  | fetchEpisodesResult (items : List MediaItem)
  | searchResults (items : List MediaItem)
  | error (e : String)
deriving DecidableEq, Repr

/-- The `tea.Cmd` values `Model.Update` can return.  Library-internal
commands (cursor blink, pagination) are modelled as `none`. -/
inductive Cmd where
  | none
  | quit
  | fetchMovies (cfg : Config)
  | fetchTVShows (cfg : Config)
  | fetchSeasons (cfg : Config) (seriesID : String)
  | fetchEpisodes (cfg : Config) (seasonID : String)
  | search (cfg : Config) (query : String)
  | play (item : MediaItem)
deriving DecidableEq, Repr

/-- Boundary model of `bubbles/list.Model`: item slice plus cursor. -/
structure ListModel where
  items : List MediaItem := []
  cursor : Nat := 0
deriving DecidableEq, Repr

/-- Method `list.Model.SelectedItem()`: the item under the cursor, if any. -/
def ListModel.selectedItem (l : ListModel) : Option MediaItem :=
  l.items.get? l.cursor

/-- Method `list.Model.SetItems`: replaces the item slice. -/
def ListModel.setItems (l : ListModel) (items : List MediaItem) : ListModel :=
  { l with items := items }

/-- Boundary model of `list.Model.Update`: the navigation keys move the
cursor; every other message leaves the list unchanged. -/
def ListModel.update (l : ListModel) (msg : Msg) : ListModel :=
  match msg with
  | .key s =>
    if s = "up" then { l with cursor := l.cursor - 1 }
    else if s = "down" then
      if l.cursor + 1 < l.items.length then { l with cursor := l.cursor + 1 } else l
    else l
  | _ => l

/-- Boundary model of `list.Model.View`: one title per line. -/
def ListModel.view (l : ListModel) : String :=
  String.intercalate "\n" (l.items.map MediaItem.title)

/-- Boundary model of `bubbles/textinput.Model`: value plus focus flag. -/
structure TextInput where
  value : String := ""
  focused : Bool := false
deriving DecidableEq, Repr

/-- Method `textinput.Model.SetValue`. -/
def TextInput.setValue (t : TextInput) (s : String) : TextInput :=
  { t with value := s }

/-- Method `textinput.Model.Focus()`. -/
def TextInput.focus (t : TextInput) : TextInput :=
  { t with focused := true }

/-- Method `textinput.Model.Blur()`. -/
def TextInput.blur (t : TextInput) : TextInput :=
  { t with focused := false }

/-- Boundary model of `textinput.Model.Update`: a focused input appends a
printable single-rune key to its value; everything else is ignored. -/
def TextInput.update (t : TextInput) (msg : Msg) : TextInput :=
  match msg with
  | .key s => if t.focused ∧ s.length = 1 then { t with value := t.value ++ s } else t
  | _ => t

/-- Boundary model of `textinput.Model.View`: the current value. -/
def TextInput.view (t : TextInput) : String :=
  t.value

/-- JSON values as far as the config file needs them. -/
inductive Json where
  | str (s : String)
  | obj (fields : List (String × Json))

/-- Marshalling: `json.MarshalIndent` applied to a `Config`: the object written to the
config file (`encoding/json` serialises the two tagged string fields). -/
def encodeConfig (config : Config) : Json :=
  .obj [("server_url", .str config.ServerURL), ("api_key", .str config.APIKey)]

/-- One step of `json.Unmarshal` into a `Config`: a recognised field must
hold a string (a type mismatch is an unmarshal error), an unknown field
is ignored. -/
def unmarshalField (c : Config) : String × Json → Except String Config
  | ("server_url", .str s) => .ok { c with ServerURL := s }
  | ("server_url", .obj _) => .error "cannot unmarshal object into field server_url"
  | ("api_key", .str s) => .ok { c with APIKey := s }
  | ("api_key", .obj _) => .error "cannot unmarshal object into field api_key"
  | (_, _) => .ok c

/-- Unmarshalling: `json.Unmarshal` of the config file body into a `Config`: start from
the zero value and apply every field of the object in order. -/
def decodeConfig : Json → Except String Config
  | .obj fields => fields.foldlM unmarshalField { ServerURL := "", APIKey := "" }
  | .str _ => .error "cannot unmarshal string into Config"

/-- Boundary model of the OS file system: home-directory resolution, a
write-permission flag (covering `MkdirAll` and `WriteFile` failures) and
the files, keyed by path, holding JSON documents. -/
structure FS where
  homeDir : Option String
  writeOk : Bool := true
  files : List (String × Json) := []

/-- Path `filepath.Join(homeDir, ".config", "jellyfin-tui", "config")`. -/
def configFilePath (homeDir : String) : String :=
  homeDir ++ "/.config/jellyfin-tui/config"

/-- Association-list read of a file. -/
def FS.readFile (fs : FS) (path : String) : Option Json :=
  (fs.files.find? (fun kv => kv.1 = path)).map Prod.snd

/-- Association-list write of a file (newest entry shadows older ones). -/
def FS.writeFile (fs : FS) (path : String) (body : Json) : FS :=
  { fs with files := (path, body) :: fs.files }

/-- Function `loadConfig` from main.go: resolve the home directory, stat the config
file, read it and unmarshal it. -/
def loadConfig (fs : FS) : Except String Config :=
  match fs.homeDir with
  | none => .error "failed to get home directory"
  | some home =>
    match fs.readFile (configFilePath home) with
    | none => .error "config file does not exist"
    | some body => decodeConfig body

/-- Function `saveConfig` from main.go: resolve the home directory, create the
config directory, marshal the config and write the file. -/
def saveConfig (fs : FS) (config : Config) : Except String FS :=
  match fs.homeDir with
  | none => .error "failed to get home directory"
  | some home =>
    if fs.writeOk then
      .ok (fs.writeFile (configFilePath home) (encodeConfig config))
    else
      .error "failed to write config file"

/-- Go struct `Model` from main.go: the whole application state.  The two-element
`configInputs` slice is split into its two entries. -/
structure Model where
  config : Config
  currentView : String
  mainList : ListModel
  moviesList : ListModel
  tvShowsList : ListModel
  seasonsList : ListModel
  episodesList : ListModel
  searchInput : TextInput
  searchList : ListModel
  configInput0 : TextInput
  configInput1 : TextInput
  currentItem : MediaItem
  err : Option String
deriving DecidableEq, Repr

/-- Function `convertToListItems` from main.go: the identity on the slice (it only
reboxes each `MediaItem` as a `list.Item`). -/
def convertToListItems (items : List MediaItem) : List MediaItem :=
  items

/-- Is the message the enter key?  (`keyMsg.String() == "enter"`.) -/
def isEnter (msg : Msg) : Bool :=
  match msg with
  | .key s => s = "enter"
  | _ => false

/-- The `case "main"` branch of the view switch in `Model.Update`:
update the list, then dispatch an enter press on the selected entry's
title. -/
def mainSection (fs : FS) (m : Model) (msg : Msg) : FS × Model × Cmd :=
  let m := { m with mainList := m.mainList.update msg }
  if isEnter msg then
    match m.mainList.selectedItem with
    | some selectedItem =>
      if selectedItem.ItemTitle = "Movies" then
        (fs, { m with currentView := "movies" }, .fetchMovies m.config)
      else if selectedItem.ItemTitle = "TV Shows" then
        (fs, { m with currentView := "tvshows" }, .fetchTVShows m.config)
      else if selectedItem.ItemTitle = "Search" then
        (fs, { m with
               currentView := "search"
               searchInput := m.searchInput.setValue "" }, .none)
      else if selectedItem.ItemTitle = "Configure" then
        (fs, { m with
               currentView := "config"
               configInput0 := (m.configInput0.setValue m.config.ServerURL).focus
               configInput1 := m.configInput1.setValue m.config.APIKey }, .none)
      else (fs, m, .none)
    | none => (fs, m, .none)
  else (fs, m, .none)

/-- The shared body of the `case "movies", "tvshows"` branch, applied to
whichever of the two lists `currentView` picks: update the list, and on
enter over a record with non-empty id drill into its seasons. -/
def libraryEnter (fs : FS) (m : Model) (msg : Msg) (l : ListModel) :
    Option (FS × ListModel × Model × Cmd) :=
  let l := l.update msg
  if isEnter msg then
    match l.selectedItem with
    | some selectedItem =>
      if selectedItem.ID ≠ "" then
        some (fs, l, { m with currentItem := selectedItem, currentView := "seasons" },
          .fetchSeasons m.config selectedItem.ID)
      else none
    | none => none
  else none

/-- The `case "movies", "tvshows"` branch of the view switch. -/
def moviesSection (fs : FS) (m : Model) (msg : Msg) : FS × Model × Cmd :=
  if m.currentView = "movies" then
    match libraryEnter fs m msg m.moviesList with
    | some (fs, l, m, cmd) => (fs, { m with moviesList := l }, cmd)
    | none => (fs, { m with moviesList := m.moviesList.update msg }, .none)
  else
    match libraryEnter fs m msg m.tvShowsList with
    | some (fs, l, m, cmd) => (fs, { m with tvShowsList := l }, cmd)
    | none => (fs, { m with tvShowsList := m.tvShowsList.update msg }, .none)

/-- The `case "seasons"` branch of the view switch: update the list, and
on enter over a record with non-empty id drill into its episodes. -/
def seasonsSection (fs : FS) (m : Model) (msg : Msg) : FS × Model × Cmd :=
  let m := { m with seasonsList := m.seasonsList.update msg }
  if isEnter msg then
    match m.seasonsList.selectedItem with
    | some selectedItem =>
      if selectedItem.ID ≠ "" then
        (fs, { m with currentItem := selectedItem, currentView := "episodes" },
          .fetchEpisodes m.config selectedItem.ID)
      else (fs, m, .none)
    | none => (fs, m, .none)
  else (fs, m, .none)

/-- The `case "episodes"` branch of the view switch: update the list, and
on enter over a record with non-empty id play it. -/
def episodesSection (fs : FS) (m : Model) (msg : Msg) : FS × Model × Cmd :=
  let m := { m with episodesList := m.episodesList.update msg }
  if isEnter msg then
    match m.episodesList.selectedItem with
    | some selectedItem =>
      if selectedItem.ID ≠ "" then (fs, m, .play selectedItem)
      else (fs, m, .none)
    | none => (fs, m, .none)
  else (fs, m, .none)

/-- The trailing `if len(m.searchList.Items()) > 0` block of the
`case "search"` branch: when results are shown, update the result list
and play an entered record with non-empty id. -/
def searchResultsSection (fs : FS) (m : Model) (msg : Msg) : FS × Model × Cmd :=
  if m.searchList.items.length > 0 then
    let m := { m with searchList := m.searchList.update msg }
    if isEnter msg then
      match m.searchList.selectedItem with
      | some selectedItem =>
        if selectedItem.ID ≠ "" then (fs, m, .play selectedItem)
        else (fs, m, .none)
      | none => (fs, m, .none)
    else (fs, m, .none)
  else (fs, m, .none)

/-- The `case "search"` branch of the view switch: enter with a non-empty
query submits a search; any other message feeds the text input; then the
result-list block runs. -/
def searchSection (fs : FS) (m : Model) (msg : Msg) : FS × Model × Cmd :=
  if isEnter msg then
    let query := m.searchInput.value
    if query ≠ "" then (fs, m, .search m.config query)
    else searchResultsSection fs m msg
  else
    searchResultsSection fs { m with searchInput := m.searchInput.update msg } msg

/-- The focus-toggle shared by `tab`/`down` and `shift+tab`/`up` in the
`case "config"` branch (the Go code's two cases have identical bodies). -/
def toggleConfigFocus (m : Model) : Model :=
  if m.configInput0.focused then
    { m with configInput0 := m.configInput0.blur, configInput1 := m.configInput1.focus }
  else
    { m with configInput0 := m.configInput0.focus, configInput1 := m.configInput1.blur }

/-- The trailing loop of the `case "config"` branch: feed the message to
the first focused input. -/
def configInputUpdate (m : Model) (msg : Msg) : Model :=
  if m.configInput0.focused then { m with configInput0 := m.configInput0.update msg }
  else if m.configInput1.focused then { m with configInput1 := m.configInput1.update msg }
  else m

/-- The `case "config"` branch of the view switch: toggle focus, commit
on enter (persisting the new profile, surfacing a save failure in `err`),
or feed the focused input. -/
def configSection (fs : FS) (m : Model) (msg : Msg) : FS × Model × Cmd :=
  match msg with
  | .key s =>
    if s = "tab" ∨ s = "down" then (fs, toggleConfigFocus m, .none)
    else if s = "shift+tab" ∨ s = "up" then (fs, toggleConfigFocus m, .none)
    else if s = "enter" then
      let newConfig : Config :=
        { ServerURL := m.configInput0.value, APIKey := m.configInput1.value }
      match saveConfig fs newConfig with
      | .error e => (fs, { m with err := some e }, .none)
      | .ok fs' => (fs', { m with config := newConfig, currentView := "main" }, .none)
    else (fs, configInputUpdate m msg, .none)
  | _ => (fs, configInputUpdate m msg, .none)

/-- The `switch m.currentView` section at the bottom of `Model.Update`. -/
def updateView (fs : FS) (m : Model) (msg : Msg) : FS × Model × Cmd :=
  if m.currentView = "main" then mainSection fs m msg
  else if m.currentView = "movies" ∨ m.currentView = "tvshows" then moviesSection fs m msg
  else if m.currentView = "seasons" then seasonsSection fs m msg
  else if m.currentView = "episodes" then episodesSection fs m msg
  else if m.currentView = "search" then searchSection fs m msg
  else if m.currentView = "config" then configSection fs m msg
  else (fs, m, .none)

/-- Function `Model.Update` from main.go: the outer message-type switch (quit and
back keys, window resize, fetch results, errors), falling through to the
per-view section.  The file system is threaded explicitly because the
config commit writes to it synchronously. -/
def update (fs : FS) (m : Model) (msg : Msg) : FS × Model × Cmd :=
  match msg with
  | .key s =>
    if s = "ctrl+c" ∨ s = "q" then (fs, m, .quit)
    else if s = "esc" then
      if m.currentView = "episodes" then (fs, { m with currentView := "seasons" }, .none)
      else if m.currentView = "seasons" then (fs, { m with currentView := "tvshows" }, .none)
      else if m.currentView = "movies" ∨ m.currentView = "tvshows" ∨ m.currentView = "search" then
        (fs, { m with currentView := "main" }, .none)
      else updateView fs m msg
    else updateView fs m msg
  | .winSize _ _ => updateView fs m msg
  | .fetchMoviesResult items =>
    (fs, { m with moviesList := m.moviesList.setItems (convertToListItems items) }, .none)
  | .fetchTVShowsResult items =>
    (fs, { m with tvShowsList := m.tvShowsList.setItems (convertToListItems items) }, .none)
  | .fetchSeasonsResult items =>
    (fs, { m with seasonsList := m.seasonsList.setItems (convertToListItems items) }, .none)
  | .fetchEpisodesResult items =>
    (fs, { m with episodesList := m.episodesList.setItems (convertToListItems items) }, .none)
  | .searchResults items =>
    (fs, { m with searchList := m.searchList.setItems (convertToListItems items) }, .none)
  | .error e => (fs, { m with err := some e }, .none)

/-- Function `Model.View` from main.go: an error, once set, pre-empts every view. -/
def Model.view (m : Model) : String :=
  match m.err with
  | some e => "Error: " ++ e ++ "\n\nPress any key to exit."
  | none =>
    if m.currentView = "main" then m.mainList.view
    else if m.currentView = "movies" then m.moviesList.view
    else if m.currentView = "tvshows" then m.tvShowsList.view
    else if m.currentView = "seasons" then m.seasonsList.view
    else if m.currentView = "episodes" then m.episodesList.view
    else if m.currentView = "search" then
      if m.searchList.items.length > 0 then m.searchList.view
      else "Search: " ++ m.searchInput.view ++ "\n\nType a search query and press Enter"
    else if m.currentView = "config" then
      "Configure Jellyfin Connection\n\n" ++
        "Server URL: " ++ m.configInput0.view ++ "\n\n" ++
        "API Key: " ++ m.configInput1.view ++ "\n\n" ++
        "(Press Enter to save and return to main menu)"
    else "Unknown view"

/-- Method `Client.GetStreamURL` from the jellyfin package: pure string
composition of base URL, stream path, item id and API key. -/
def getStreamURL (config : Config) (itemID : String) : String :=
  config.ServerURL ++ "/Videos/" ++ itemID ++ "/stream?api_key=" ++ config.APIKey

/-- Go's `fmt.Sprintf("%02d", n)` for the episode numbers the code
formats (only reached when `n > 0`). -/
def format02d (n : Int) : String :=
  if 0 ≤ n ∧ n < 10 then "0" ++ toString n else toString n

/-- The per-record conversion inside `fetchEpisodes`: client record to
app record, with the `E..:` display title when an index is present. -/
def episodeMediaItem (config : Config) (seasonID : String) (item : JFItem) : MediaItem :=
  let displayTitle :=
    if item.IndexNumber > 0 then "E" ++ format02d item.IndexNumber ++ ": " ++ item.Name
    else item.Name
  { ID := item.ID
    ItemTitle := item.Name
    ItemType := "episode"
    ParentID := seasonID
    StreamURL := getStreamURL config item.ID
    IndexNumber := item.IndexNumber
    DisplayTitle := displayTitle }

/-- Ordered insertion by `IndexNumber` (helper for the sort below). -/
def insertByIndex (x : MediaItem) : List MediaItem → List MediaItem
  | [] => [x]
  | y :: ys => if x.IndexNumber ≤ y.IndexNumber then x :: y :: ys else y :: insertByIndex x ys

/-- The `sort.Slice(mediaItems, …IndexNumber < …IndexNumber)` call in
`fetchEpisodes`: a comparison sort by `IndexNumber`, realised as
insertion sort (`sort.Slice` promises only an ordering by the supplied
`less`, which any comparison sort refines). -/
def sortByIndexNumber : List MediaItem → List MediaItem
  | [] => []
  | x :: xs => insertByIndex x (sortByIndexNumber xs)

/-- The pure tail of `fetchEpisodes`: what the command turns a decoded
item list into before wrapping it as `fetchEpisodesMsg`. -/
def episodesFromFetch (config : Config) (seasonID : String) (items : List JFItem) :
    List MediaItem :=
  sortByIndexNumber (items.map (episodeMediaItem config seasonID))

/-- Non-decreasing by `IndexNumber`, as a decidable check. -/
def sortedByIndex : List MediaItem → Bool
  | [] => true
  | [_] => true
  | x :: y :: rest => x.IndexNumber ≤ y.IndexNumber && sortedByIndex (y :: rest)

/-- The pure tail of `fetchMovies`: conversion of decoded items. -/
def moviesFromFetch (config : Config) (items : List JFItem) : List MediaItem :=
  items.map (fun item =>
    { ID := item.ID
      ItemTitle := item.Name
      ItemType := item.MediaType
      StreamURL := getStreamURL config item.ID })

/-- The four synthetic rows `initialModel` puts into the main menu. -/
def mainMenuItems : List MediaItem :=
  [ { ItemTitle := "Movies", ItemType := "category" }
  , { ItemTitle := "TV Shows", ItemType := "category" }
  , { ItemTitle := "Search", ItemType := "action" }
  , { ItemTitle := "Configure", ItemType := "action" } ]

/-- An enter key press leaves a list model unchanged (enter is not one of
the cursor-movement keys). -/
theorem ListModel.update_enter (l : ListModel) : l.update (Msg.key "enter") = l := rfl

/-- A list with a selected item is non-empty. -/
theorem ListModel.selectedItem_length_pos (l : ListModel) (it : MediaItem)
    (h : l.selectedItem = some it) : 0 < l.items.length := by
  by_contra hlen
  have : l.items = [] := List.length_eq_zero.mp (Nat.eq_zero_of_not_pos hlen)
  simp [ListModel.selectedItem, this] at h

/-- Inserting into a list sorted by `IndexNumber` keeps it sorted. -/
theorem sortedByIndex_insertByIndex (x : MediaItem) :
    ∀ l : List MediaItem, sortedByIndex l = true →
      sortedByIndex (insertByIndex x l) = true := by
  intro l
  induction l with
  | nil => intro _; rfl
  | cons y ys ih =>
    intro h
    by_cases hxy : x.IndexNumber ≤ y.IndexNumber
    · cases ys with
      | nil => simp [insertByIndex, hxy, sortedByIndex]
      | cons z zs =>
        simp only [insertByIndex, if_pos hxy, sortedByIndex, Bool.and_eq_true,
          decide_eq_true_eq] at h ⊢
        exact ⟨hxy, h⟩
    · cases ys with
      | nil =>
        simp only [insertByIndex, if_neg hxy, sortedByIndex, Bool.and_eq_true,
          decide_eq_true_eq]
        exact ⟨by omega, trivial⟩
      | cons z zs =>
        simp only [sortedByIndex, Bool.and_eq_true, decide_eq_true_eq] at h
        have htail := ih h.2
        by_cases hxz : x.IndexNumber ≤ z.IndexNumber
        · simp only [insertByIndex, if_neg hxy, if_pos hxz, sortedByIndex,
            Bool.and_eq_true, decide_eq_true_eq] at htail ⊢
          exact ⟨by omega, htail⟩
        · simp only [insertByIndex, if_neg hxy, if_neg hxz, sortedByIndex,
            Bool.and_eq_true, decide_eq_true_eq] at htail ⊢
          exact ⟨h.1, htail⟩

/-- The episode sort always produces a list that is non-decreasing by
`IndexNumber`. -/
theorem sortedByIndex_sortByIndexNumber (l : List MediaItem) :
    sortedByIndex (sortByIndexNumber l) = true := by
  induction l with
  | nil => rfl
  | cons x xs ih => exact sortedByIndex_insertByIndex x _ ih

/-- A fixed profile for concrete scenarios. -/
def demoConfig : Config :=
  { ServerURL := "https://jellyfin.example.com", APIKey := "key123" }

/-- The state `initialModel` reaches once the config is loaded: main view,
synthetic menu rows, every other buffer empty, no error. -/
def baseModel : Model :=
  { config := demoConfig
    currentView := "main"
    mainList := { items := mainMenuItems, cursor := 0 }
    moviesList := {}
    tvShowsList := {}
    seasonsList := {}
    episodesList := {}
    searchInput := { value := "", focused := true }
    searchList := {}
    configInput0 := { value := demoConfig.ServerURL, focused := true }
    configInput1 := { value := demoConfig.APIKey, focused := false }
    currentItem := {}
    err := none }

/-- A concrete playable record used by several scenarios. -/
def demoMovie : MediaItem :=
  { ID := "1", ItemTitle := "A", ItemType := "Movie",
    StreamURL := getStreamURL demoConfig "1" }

/-- A concrete file system with a home directory and write permission. -/
def demoFS : FS :=
  { homeDir := some "/home/user", writeOk := true, files := [] }

/-- C5: every list an episodes fetch delivers is sorted non-decreasing by
`IndexNumber` (absent numbers decode to `0`, the lowest key, so they come
first); the update stores exactly that list in the Episodes buffer; and
the concrete scenario `[e1 seq 2, e2 seq 1, e3 absent]` is stored as
`[e3, e2, e1]`. -/
theorem episodes_sorted_by_sequence (config : Config) (seasonID : String)
    (items : List JFItem) (fs : FS) (m : Model) :
    sortedByIndex (episodesFromFetch config seasonID items) = true ∧
    (update fs m
        (Msg.fetchEpisodesResult (episodesFromFetch config seasonID items))).2.1.episodesList.items
      = episodesFromFetch config seasonID items ∧
    (episodesFromFetch demoConfig "season1"
      [ { ID := "e1", Name := "A", IndexNumber := 2 }
      , { ID := "e2", Name := "B", IndexNumber := 1 }
      , { ID := "e3", Name := "C" } ]).map MediaItem.ID = ["e3", "e2", "e1"] :=
  ⟨sortedByIndex_sortByIndexNumber _, rfl, rfl⟩

/-- C6: a successful fetch result replaces exactly the buffer of the view
it targets, whatever the current view is, and leaves everything else —
active view, selection context, the other buffers, the error slot, the
file system — unchanged, with no further command. -/
theorem fetch_success_replaces_only_target (fs : FS) (m : Model)
    (items : List MediaItem) :
    update fs m (Msg.fetchMoviesResult items)
      = (fs, { m with moviesList := m.moviesList.setItems items }, Cmd.none) ∧
    update fs m (Msg.fetchTVShowsResult items)
      = (fs, { m with tvShowsList := m.tvShowsList.setItems items }, Cmd.none) ∧
    update fs m (Msg.fetchSeasonsResult items)
      = (fs, { m with seasonsList := m.seasonsList.setItems items }, Cmd.none) ∧
    update fs m (Msg.fetchEpisodesResult items)
      = (fs, { m with episodesList := m.episodesList.setItems items }, Cmd.none) ∧
    update fs m (Msg.searchResults items)
      = (fs, { m with searchList := m.searchList.setItems items }, Cmd.none) :=
  ⟨rfl, rfl, rfl, rfl, rfl⟩

/-- C7: a failed fetch result sets the error slot to the carried error and
changes nothing else — every buffer (including a non-empty one for the
targeted view), the active view, the selection context and the file
system all keep their previous contents. -/
theorem fetch_failure_sets_only_error (fs : FS) (m : Model) (e : String) :
    update fs m (Msg.error e) = (fs, { m with err := some e }, Cmd.none) :=
  rfl

/-- C10: in every state the plain `q` key returns the quit command before
any view or text input sees it, so the model — in particular the search
query buffer and both Configure fields — is returned unchanged. -/
theorem q_key_always_quits (fs : FS) (m : Model) :
    update fs m (Msg.key "q") = (fs, m, Cmd.quit) ∧
    (update fs m (Msg.key "q")).2.1.searchInput.value = m.searchInput.value ∧
    (update fs m (Msg.key "q")).2.1.configInput0.value = m.configInput0.value ∧
    (update fs m (Msg.key "q")).2.1.configInput1.value = m.configInput1.value :=
  ⟨rfl, rfl, rfl, rfl⟩

/-- Decoding the encoding of a profile restores the profile. -/
theorem decodeConfig_encodeConfig (config : Config) :
    decodeConfig (encodeConfig config) = .ok config :=
  rfl

/-- C8: a profile saved with `saveConfig` is read back unchanged by
`loadConfig` (round trip through the JSON config file). -/
theorem saveConfig_loadConfig_roundtrip (fs : FS) (config : Config) (fs' : FS)
    (h : saveConfig fs config = .ok fs') :
    loadConfig fs' = .ok config := by
  cases hh : fs.homeDir with
  | none => simp [saveConfig, hh] at h
  | some home =>
    by_cases hw : fs.writeOk = true
    · simp only [saveConfig, hh, hw, if_true, Except.ok.injEq] at h
      subst h
      simp [loadConfig, FS.writeFile, FS.readFile, hh, decodeConfig_encodeConfig]
    · simp [saveConfig, hh, hw] at h

/-- Witness for C8 at a concrete profile and file system. -/
theorem saveConfig_loadConfig_roundtrip_witness :
    loadConfig (demoFS.writeFile (configFilePath "/home/user") (encodeConfig demoConfig))
      = .ok demoConfig :=
  saveConfig_loadConfig_roundtrip demoFS demoConfig _ rfl

/-- The main-menu section never touches the error slot. -/
theorem mainSection_err (fs : FS) (m : Model) (msg : Msg) :
    (mainSection fs m msg).2.1.err = m.err := by
  unfold mainSection
  dsimp only
  repeat' split
  all_goals rfl

/-- A library drill-down result carries the same error slot as its input. -/
theorem libraryEnter_err (fs : FS) (m : Model) (msg : Msg) (l : ListModel)
    (r : FS × ListModel × Model × Cmd) (h : libraryEnter fs m msg l = some r) :
    r.2.2.1.err = m.err := by
  unfold libraryEnter at h
  dsimp only at h
  repeat' split at h
  · injection h with h2
    subst h2
    rfl
  all_goals simp at h

/-- The movies/tvshows section never touches the error slot. -/
theorem moviesSection_err (fs : FS) (m : Model) (msg : Msg) :
    (moviesSection fs m msg).2.1.err = m.err := by
  unfold moviesSection
  split
  · cases hle : libraryEnter fs m msg m.moviesList with
    | some r =>
      have hr := libraryEnter_err fs m msg m.moviesList r hle
      simp only [hle]
      obtain ⟨fs1, l1, m1, cmd1⟩ := r
      exact hr
    | none => simp only [hle]
  · cases hle : libraryEnter fs m msg m.tvShowsList with
    | some r =>
      have hr := libraryEnter_err fs m msg m.tvShowsList r hle
      simp only [hle]
      obtain ⟨fs1, l1, m1, cmd1⟩ := r
      exact hr
    | none => simp only [hle]

/-- The seasons section never touches the error slot. -/
theorem seasonsSection_err (fs : FS) (m : Model) (msg : Msg) :
    (seasonsSection fs m msg).2.1.err = m.err := by
  unfold seasonsSection
  dsimp only
  repeat' split
  all_goals rfl

/-- The episodes section never touches the error slot. -/
theorem episodesSection_err (fs : FS) (m : Model) (msg : Msg) :
    (episodesSection fs m msg).2.1.err = m.err := by
  unfold episodesSection
  dsimp only
  repeat' split
  all_goals rfl

/-- The search-results block never touches the error slot. -/
theorem searchResultsSection_err (fs : FS) (m : Model) (msg : Msg) :
    (searchResultsSection fs m msg).2.1.err = m.err := by
  unfold searchResultsSection
  dsimp only
  repeat' split
  all_goals rfl

/-- The search section never touches the error slot. -/
theorem searchSection_err (fs : FS) (m : Model) (msg : Msg) :
    (searchSection fs m msg).2.1.err = m.err := by
  unfold searchSection
  dsimp only
  repeat' split
  all_goals simp [searchResultsSection_err]

/-- The config section either leaves the error slot alone or records a
save failure in it. -/
theorem configSection_err (fs : FS) (m : Model) (msg : Msg) :
    (configSection fs m msg).2.1.err = m.err ∨
    ∃ e, (configSection fs m msg).2.1.err = some e := by
  unfold configSection toggleConfigFocus configInputUpdate
  dsimp only
  repeat' split
  all_goals first
    | (left; rfl)
    | (right; exact ⟨_, rfl⟩)

/-- The per-view section either leaves the error slot alone or records a
save failure in it. -/
theorem updateView_err (fs : FS) (m : Model) (msg : Msg) :
    (updateView fs m msg).2.1.err = m.err ∨
    ∃ e, (updateView fs m msg).2.1.err = some e := by
  unfold updateView
  repeat' split
  · exact .inl (mainSection_err fs m msg)
  · exact .inl (moviesSection_err fs m msg)
  · exact .inl (seasonsSection_err fs m msg)
  · exact .inl (episodesSection_err fs m msg)
  · exact .inl (searchSection_err fs m msg)
  · exact configSection_err fs m msg
  · exact .inl rfl

/-- Every event either leaves the error slot alone or stores an error in
it; no branch of `update` ever clears it. -/
theorem update_err (fs : FS) (m : Model) (msg : Msg) :
    (update fs m msg).2.1.err = m.err ∨
    ∃ e, (update fs m msg).2.1.err = some e := by
  cases msg with
  | key s =>
    unfold update
    dsimp only
    split
    · exact .inl rfl
    · split
      · split
        · exact .inl rfl
        · split
          · exact .inl rfl
          · split
            · exact .inl rfl
            · exact updateView_err fs m _
      · exact updateView_err fs m _
  | winSize w h => exact updateView_err fs m _
  | fetchMoviesResult items => exact .inl rfl
  | fetchTVShowsResult items => exact .inl rfl
  | fetchSeasonsResult items => exact .inl rfl
  | fetchEpisodesResult items => exact .inl rfl
  | searchResults items => exact .inl rfl
  | error e => exact .inr ⟨e, rfl⟩

/-- C9: a recorded error is permanent — no branch of `update` ever resets
`err` to none, so any event applied to a state with a non-nil error
yields a state with a non-nil error; and the render function shows the
error text instead of any view whenever the error is set. -/
theorem error_nonnil_invariant (fs : FS) (m : Model) (msg : Msg) :
    (m.err.isSome = true → ((update fs m msg).2.1.err).isSome = true) ∧
    (∀ e, m.err = some e →
      m.view = "Error: " ++ e ++ "\n\nPress any key to exit.") := by
  constructor
  · intro h
    rcases update_err fs m msg with h2 | ⟨e, h2⟩
    · rw [h2]; exact h
    · rw [h2]; rfl
  · intro e he
    simp [Model.view, he]

/-- Witness for C9: a state with a recorded error keeps it across a
cursor-movement event, and renders the error text. -/
theorem error_nonnil_invariant_witness :
    (({ baseModel with err := some "boom" } : Model).err.isSome = true) ∧
    ((update demoFS { baseModel with err := some "boom" }
        (Msg.key "down")).2.1.err).isSome = true ∧
    ({ baseModel with err := some "boom" } : Model).view
      = "Error: boom\n\nPress any key to exit." :=
  ⟨rfl,
   (error_nonnil_invariant demoFS { baseModel with err := some "boom" }
      (Msg.key "down")).1 rfl,
   (error_nonnil_invariant demoFS { baseModel with err := some "boom" }
      (Msg.key "down")).2 "boom" rfl⟩

/-- Enter on the Movies entry of the main menu. -/
theorem update_enter_main_movies (fs : FS) (m : Model) (item : MediaItem)
    (h : m.currentView = "main") (hsel : m.mainList.selectedItem = some item)
    (ht : item.ItemTitle = "Movies") :
    update fs m (Msg.key "enter")
      = (fs, { m with currentView := "movies" }, Cmd.fetchMovies m.config) := by
  simp [update, updateView, mainSection, h, ListModel.update_enter, isEnter, hsel, ht]

/-- Enter on the TV Shows entry of the main menu. -/
theorem update_enter_main_tvshows (fs : FS) (m : Model) (item : MediaItem)
    (h : m.currentView = "main") (hsel : m.mainList.selectedItem = some item)
    (ht : item.ItemTitle = "TV Shows") :
    update fs m (Msg.key "enter")
      = (fs, { m with currentView := "tvshows" }, Cmd.fetchTVShows m.config) := by
  simp [update, updateView, mainSection, h, ListModel.update_enter, isEnter, hsel, ht]

/-- Enter on a movie with a non-empty id drills into its seasons. -/
theorem update_enter_movies_drill (fs : FS) (m : Model) (item : MediaItem)
    (h : m.currentView = "movies") (hsel : m.moviesList.selectedItem = some item)
    (hid : item.ID ≠ "") :
    update fs m (Msg.key "enter")
      = (fs, { m with currentItem := item, currentView := "seasons" },
          Cmd.fetchSeasons m.config item.ID) := by
  simp [update, updateView, moviesSection, libraryEnter, h, ListModel.update_enter,
    isEnter, hsel, hid]

/-- Enter on a TV show with a non-empty id drills into its seasons. -/
theorem update_enter_tvshows_drill (fs : FS) (m : Model) (item : MediaItem)
    (h : m.currentView = "tvshows") (hsel : m.tvShowsList.selectedItem = some item)
    (hid : item.ID ≠ "") :
    update fs m (Msg.key "enter")
      = (fs, { m with currentItem := item, currentView := "seasons" },
          Cmd.fetchSeasons m.config item.ID) := by
  simp [update, updateView, moviesSection, libraryEnter, h, ListModel.update_enter,
    isEnter, hsel, hid]

/-- Enter on a season with a non-empty id drills into its episodes. -/
theorem update_enter_seasons_drill (fs : FS) (m : Model) (item : MediaItem)
    (h : m.currentView = "seasons") (hsel : m.seasonsList.selectedItem = some item)
    (hid : item.ID ≠ "") :
    update fs m (Msg.key "enter")
      = (fs, { m with currentItem := item, currentView := "episodes" },
          Cmd.fetchEpisodes m.config item.ID) := by
  simp [update, updateView, seasonsSection, h, ListModel.update_enter, isEnter, hsel, hid]

/-- Enter on an episode with a non-empty id plays it and changes nothing. -/
theorem update_enter_episodes_play (fs : FS) (m : Model) (item : MediaItem)
    (h : m.currentView = "episodes") (hsel : m.episodesList.selectedItem = some item)
    (hid : item.ID ≠ "") :
    update fs m (Msg.key "enter") = (fs, m, Cmd.play item) := by
  simp [update, updateView, episodesSection, h, ListModel.update_enter, isEnter, hsel, hid]
  rw [← h]

/-- Enter in the search view with an empty query buffer and a selected
result with non-empty id plays it and changes nothing. -/
theorem update_enter_search_play (fs : FS) (m : Model) (item : MediaItem)
    (h : m.currentView = "search") (hq : m.searchInput.value = "")
    (hsel : m.searchList.selectedItem = some item) (hid : item.ID ≠ "") :
    update fs m (Msg.key "enter") = (fs, m, Cmd.play item) := by
  have hlen : 0 < m.searchList.items.length :=
    ListModel.selectedItem_length_pos _ _ hsel
  simp [update, updateView, searchSection, searchResultsSection, h, hq, hlen,
    ListModel.update_enter, isEnter, hsel, hid]
  rw [← h]

/-- Enter in the search view with a non-empty query buffer submits the
query as a search fetch instead of playing anything. -/
theorem update_enter_search_submit (fs : FS) (m : Model)
    (h : m.currentView = "search") (hq : m.searchInput.value ≠ "") :
    update fs m (Msg.key "enter")
      = (fs, m, Cmd.search m.config m.searchInput.value) := by
  simp [update, updateView, searchSection, h, hq, isEnter]

/-- A placeholder record with empty id. -/
def demoPlaceholder : MediaItem :=
  { ItemTitle := "placeholder" }

/-- A concrete TV-show record. -/
def demoShow : MediaItem :=
  { ID := "s1", ItemTitle := "Show", ItemType := "tvshow" }

/-- A concrete season record. -/
def demoSeason : MediaItem :=
  { ID := "S1", ItemTitle := "Season 1", ItemType := "season", ParentID := "s1" }

/-- A concrete episode record. -/
def demoEpisode : MediaItem :=
  { ID := "e1", ItemTitle := "Pilot", ItemType := "episode", ParentID := "S1",
    StreamURL := getStreamURL demoConfig "e1", IndexNumber := 1 }

/-- Main-menu state with the TV Shows entry selected. -/
def mainOnTVShows : Model :=
  { baseModel with mainList := { items := mainMenuItems, cursor := 1 } }

/-- Movies view with one real movie selected. -/
def moviesModel : Model :=
  { baseModel with
    currentView := "movies"
    moviesList := { items := [demoMovie], cursor := 0 } }

/-- TV-shows view with one real show selected. -/
def tvShowsModel : Model :=
  { baseModel with
    currentView := "tvshows"
    tvShowsList := { items := [demoShow], cursor := 0 } }

/-- Seasons view with one real season selected. -/
def seasonsModel : Model :=
  { baseModel with
    currentView := "seasons"
    currentItem := demoShow
    seasonsList := { items := [demoSeason], cursor := 0 } }

/-- Episodes view with one real episode selected. -/
def episodesModel : Model :=
  { baseModel with
    currentView := "episodes"
    currentItem := demoSeason
    episodesList := { items := [demoEpisode], cursor := 0 } }

/-- Search view with a non-empty query and a non-empty result list. -/
def searchModel : Model :=
  { baseModel with
    currentView := "search"
    searchInput := { value := "foo", focused := true }
    searchList := { items := [demoMovie], cursor := 0 } }

/-- Search view with an empty query buffer and a non-empty result list. -/
def searchReadyModel : Model :=
  { baseModel with
    currentView := "search"
    searchInput := { value := "", focused := true }
    searchList := { items := [demoMovie], cursor := 0 } }

/-- The search-results block never changes the active view or the
selection context. -/
theorem searchResultsSection_view_ctx (fs : FS) (m : Model) (msg : Msg) :
    (searchResultsSection fs m msg).2.1.currentView = m.currentView ∧
    (searchResultsSection fs m msg).2.1.currentItem = m.currentItem := by
  unfold searchResultsSection
  dsimp only
  repeat' split
  all_goals exact ⟨rfl, rfl⟩

/-- The search section never changes the active view or the selection
context. -/
theorem searchSection_view_ctx (fs : FS) (m : Model) (msg : Msg) :
    (searchSection fs m msg).2.1.currentView = m.currentView ∧
    (searchSection fs m msg).2.1.currentItem = m.currentItem := by
  unfold searchSection
  dsimp only
  repeat' split
  · exact ⟨rfl, rfl⟩
  · exact searchResultsSection_view_ctx fs m msg
  · exact searchResultsSection_view_ctx fs _ msg

/-- C1 counterexample: from Main with a recorded error, selecting the
Movies entry activates the movies view and emits the fetch, but the
error slot keeps its previous value instead of being cleared. -/
theorem enter_view_clears_error_counterexample :
    ((update demoFS { baseModel with err := some "boom" }
        (Msg.key "enter")).2.1.currentView = "movies") ∧
    ((update demoFS { baseModel with err := some "boom" }
        (Msg.key "enter")).2.2 = Cmd.fetchMovies demoConfig) ∧
    ((update demoFS { baseModel with err := some "boom" }
        (Msg.key "enter")).2.1.err = some "boom") :=
  ⟨rfl, rfl, rfl⟩

/-- C1 (amended): every enter-view-with-fetch transition sets the target
view as active and emits its fetch command, but leaves `lastError`
unchanged — no transition clears it. -/
theorem enter_view_transitions (fs : FS) (m : Model) (item : MediaItem) :
    (m.currentView = "main" → m.mainList.selectedItem = some item →
      item.ItemTitle = "Movies" →
      update fs m (Msg.key "enter")
        = (fs, { m with currentView := "movies" }, Cmd.fetchMovies m.config) ∧
      (update fs m (Msg.key "enter")).2.1.err = m.err) ∧
    (m.currentView = "main" → m.mainList.selectedItem = some item →
      item.ItemTitle = "TV Shows" →
      update fs m (Msg.key "enter")
        = (fs, { m with currentView := "tvshows" }, Cmd.fetchTVShows m.config) ∧
      (update fs m (Msg.key "enter")).2.1.err = m.err) ∧
    (m.currentView = "movies" → m.moviesList.selectedItem = some item →
      item.ID ≠ "" →
      update fs m (Msg.key "enter")
        = (fs, { m with currentItem := item, currentView := "seasons" },
            Cmd.fetchSeasons m.config item.ID) ∧
      (update fs m (Msg.key "enter")).2.1.err = m.err) ∧
    (m.currentView = "tvshows" → m.tvShowsList.selectedItem = some item →
      item.ID ≠ "" →
      update fs m (Msg.key "enter")
        = (fs, { m with currentItem := item, currentView := "seasons" },
            Cmd.fetchSeasons m.config item.ID) ∧
      (update fs m (Msg.key "enter")).2.1.err = m.err) ∧
    (m.currentView = "seasons" → m.seasonsList.selectedItem = some item →
      item.ID ≠ "" →
      update fs m (Msg.key "enter")
        = (fs, { m with currentItem := item, currentView := "episodes" },
            Cmd.fetchEpisodes m.config item.ID) ∧
      (update fs m (Msg.key "enter")).2.1.err = m.err) := by
  refine ⟨?_, ?_, ?_, ?_, ?_⟩
  · intro h hsel ht
    have he := update_enter_main_movies fs m item h hsel ht
    exact ⟨he, by rw [he]⟩
  · intro h hsel ht
    have he := update_enter_main_tvshows fs m item h hsel ht
    exact ⟨he, by rw [he]⟩
  · intro h hsel hid
    have he := update_enter_movies_drill fs m item h hsel hid
    exact ⟨he, by rw [he]⟩
  · intro h hsel hid
    have he := update_enter_tvshows_drill fs m item h hsel hid
    exact ⟨he, by rw [he]⟩
  · intro h hsel hid
    have he := update_enter_seasons_drill fs m item h hsel hid
    exact ⟨he, by rw [he]⟩

/-- Witness for C1 (amended): all five transitions at concrete states. -/
theorem enter_view_transitions_witness :
    (update demoFS baseModel (Msg.key "enter")
      = (demoFS, { baseModel with currentView := "movies" },
          Cmd.fetchMovies demoConfig)) ∧
    (update demoFS mainOnTVShows (Msg.key "enter")
      = (demoFS, { mainOnTVShows with currentView := "tvshows" },
          Cmd.fetchTVShows demoConfig)) ∧
    (update demoFS moviesModel (Msg.key "enter")
      = (demoFS, { moviesModel with currentItem := demoMovie, currentView := "seasons" },
          Cmd.fetchSeasons demoConfig "1")) ∧
    (update demoFS tvShowsModel (Msg.key "enter")
      = (demoFS, { tvShowsModel with currentItem := demoShow, currentView := "seasons" },
          Cmd.fetchSeasons demoConfig "s1")) ∧
    (update demoFS seasonsModel (Msg.key "enter")
      = (demoFS, { seasonsModel with currentItem := demoSeason, currentView := "episodes" },
          Cmd.fetchEpisodes demoConfig "S1")) :=
  ⟨((enter_view_transitions demoFS baseModel _).1 rfl rfl rfl).1,
   ((enter_view_transitions demoFS mainOnTVShows _).2.1 rfl rfl rfl).1,
   ((enter_view_transitions demoFS moviesModel demoMovie).2.2.1 rfl rfl
      (by decide)).1,
   ((enter_view_transitions demoFS tvShowsModel demoShow).2.2.2.1 rfl rfl
      (by decide)).1,
   ((enter_view_transitions demoFS seasonsModel demoSeason).2.2.2.2 rfl rfl
      (by decide)).1⟩

/-- C2 counterexample: a successful fetch result does not reset a
previously recorded error to none. -/
theorem fetch_success_clears_error_counterexample :
    (update demoFS { baseModel with err := some "boom" }
        (Msg.fetchMoviesResult [demoMovie])).2.1.err = some "boom" :=
  rfl

/-- C2 (amended): every successful fetch result replaces its target
buffer but leaves `lastError` exactly as it was — no event except quit
ends the error display. -/
theorem fetch_success_keeps_error (fs : FS) (m : Model) (items : List MediaItem) :
    ((update fs m (Msg.fetchMoviesResult items)).2.1.err = m.err) ∧
    ((update fs m (Msg.fetchTVShowsResult items)).2.1.err = m.err) ∧
    ((update fs m (Msg.fetchSeasonsResult items)).2.1.err = m.err) ∧
    ((update fs m (Msg.fetchEpisodesResult items)).2.1.err = m.err) ∧
    ((update fs m (Msg.searchResults items)).2.1.err = m.err) :=
  ⟨rfl, rfl, rfl, rfl, rfl⟩

/-- C3 counterexample: the Main menu dispatches on the entry title, so
selecting its Movies row — whose id is empty — does change the active
view. -/
theorem empty_id_select_counterexample :
    baseModel.currentView = "main" ∧
    baseModel.mainList.selectedItem
      = some { ItemTitle := "Movies", ItemType := "category" } ∧
    ({ ItemTitle := "Movies", ItemType := "category" } : MediaItem).ID = "" ∧
    (update demoFS baseModel (Msg.key "enter")).2.1.currentView = "movies" :=
  ⟨rfl, rfl, rfl, rfl⟩

/-- C3 (amended): in the movies, tvshows, seasons, episodes and search
list views, selecting a record with empty id changes neither the active
view nor the selection context; the Main menu is excluded because its
selection dispatches on the entry title, not the id. -/
theorem empty_id_select_noop (fs : FS) (m : Model) :
    (m.currentView = "movies" →
      (∀ it, m.moviesList.selectedItem = some it → it.ID = "") →
      (update fs m (Msg.key "enter")).2.1.currentView = m.currentView ∧
      (update fs m (Msg.key "enter")).2.1.currentItem = m.currentItem) ∧
    (m.currentView = "tvshows" →
      (∀ it, m.tvShowsList.selectedItem = some it → it.ID = "") →
      (update fs m (Msg.key "enter")).2.1.currentView = m.currentView ∧
      (update fs m (Msg.key "enter")).2.1.currentItem = m.currentItem) ∧
    (m.currentView = "seasons" →
      (∀ it, m.seasonsList.selectedItem = some it → it.ID = "") →
      (update fs m (Msg.key "enter")).2.1.currentView = m.currentView ∧
      (update fs m (Msg.key "enter")).2.1.currentItem = m.currentItem) ∧
    (m.currentView = "episodes" →
      (∀ it, m.episodesList.selectedItem = some it → it.ID = "") →
      (update fs m (Msg.key "enter")).2.1.currentView = m.currentView ∧
      (update fs m (Msg.key "enter")).2.1.currentItem = m.currentItem) ∧
    (m.currentView = "search" →
      (update fs m (Msg.key "enter")).2.1.currentView = m.currentView ∧
      (update fs m (Msg.key "enter")).2.1.currentItem = m.currentItem) := by
  refine ⟨?_, ?_, ?_, ?_, ?_⟩
  · intro h hid
    cases hsel : m.moviesList.selectedItem with
    | none =>
      simp [update, updateView, moviesSection, libraryEnter, h, isEnter,
        ListModel.update_enter, hsel]
    | some it =>
      have hempty := hid it hsel
      simp [update, updateView, moviesSection, libraryEnter, h, isEnter,
        ListModel.update_enter, hsel, hempty]
  · intro h hid
    cases hsel : m.tvShowsList.selectedItem with
    | none =>
      simp [update, updateView, moviesSection, libraryEnter, h, isEnter,
        ListModel.update_enter, hsel]
    | some it =>
      have hempty := hid it hsel
      simp [update, updateView, moviesSection, libraryEnter, h, isEnter,
        ListModel.update_enter, hsel, hempty]
  · intro h hid
    cases hsel : m.seasonsList.selectedItem with
    | none =>
      simp [update, updateView, seasonsSection, h, isEnter,
        ListModel.update_enter, hsel]
    | some it =>
      have hempty := hid it hsel
      simp [update, updateView, seasonsSection, h, isEnter,
        ListModel.update_enter, hsel, hempty]
  · intro h hid
    cases hsel : m.episodesList.selectedItem with
    | none =>
      simp [update, updateView, episodesSection, h, isEnter,
        ListModel.update_enter, hsel]
    | some it =>
      have hempty := hid it hsel
      simp [update, updateView, episodesSection, h, isEnter,
        ListModel.update_enter, hsel, hempty]
  · intro h
    have hu : update fs m (Msg.key "enter") = searchSection fs m (Msg.key "enter") := by
      simp [update, updateView, h]
    rw [hu]
    exact searchSection_view_ctx fs m _

/-- Movies view whose only row is an empty-id placeholder. -/
def moviesPlaceholderModel : Model :=
  { baseModel with
    currentView := "movies"
    moviesList := { items := [demoPlaceholder], cursor := 0 } }

/-- TV-shows view whose only row is an empty-id placeholder. -/
def tvShowsPlaceholderModel : Model :=
  { baseModel with
    currentView := "tvshows"
    tvShowsList := { items := [demoPlaceholder], cursor := 0 } }

/-- Seasons view whose only row is an empty-id placeholder. -/
def seasonsPlaceholderModel : Model :=
  { baseModel with
    currentView := "seasons"
    seasonsList := { items := [demoPlaceholder], cursor := 0 } }

/-- Episodes view whose only row is an empty-id placeholder. -/
def episodesPlaceholderModel : Model :=
  { baseModel with
    currentView := "episodes"
    episodesList := { items := [demoPlaceholder], cursor := 0 } }

/-- Witness for C3 (amended): empty-id selection leaves view and context
alone in all five list views at concrete states. -/
theorem empty_id_select_noop_witness :
    ((update demoFS moviesPlaceholderModel (Msg.key "enter")).2.1.currentView
        = moviesPlaceholderModel.currentView ∧
      (update demoFS moviesPlaceholderModel (Msg.key "enter")).2.1.currentItem
        = moviesPlaceholderModel.currentItem) ∧
    ((update demoFS tvShowsPlaceholderModel (Msg.key "enter")).2.1.currentView
        = tvShowsPlaceholderModel.currentView ∧
      (update demoFS tvShowsPlaceholderModel (Msg.key "enter")).2.1.currentItem
        = tvShowsPlaceholderModel.currentItem) ∧
    ((update demoFS seasonsPlaceholderModel (Msg.key "enter")).2.1.currentView
        = seasonsPlaceholderModel.currentView ∧
      (update demoFS seasonsPlaceholderModel (Msg.key "enter")).2.1.currentItem
        = seasonsPlaceholderModel.currentItem) ∧
    ((update demoFS episodesPlaceholderModel (Msg.key "enter")).2.1.currentView
        = episodesPlaceholderModel.currentView ∧
      (update demoFS episodesPlaceholderModel (Msg.key "enter")).2.1.currentItem
        = episodesPlaceholderModel.currentItem) ∧
    ((update demoFS searchModel (Msg.key "enter")).2.1.currentView
        = searchModel.currentView ∧
      (update demoFS searchModel (Msg.key "enter")).2.1.currentItem
        = searchModel.currentItem) :=
  ⟨(empty_id_select_noop demoFS moviesPlaceholderModel).1 rfl
      (fun it hit => by
        have h2 : demoPlaceholder = it := Option.some.inj hit
        rw [← h2]
        rfl),
   (empty_id_select_noop demoFS tvShowsPlaceholderModel).2.1 rfl
      (fun it hit => by
        have h2 : demoPlaceholder = it := Option.some.inj hit
        rw [← h2]
        rfl),
   (empty_id_select_noop demoFS seasonsPlaceholderModel).2.2.1 rfl
      (fun it hit => by
        have h2 : demoPlaceholder = it := Option.some.inj hit
        rw [← h2]
        rfl),
   (empty_id_select_noop demoFS episodesPlaceholderModel).2.2.2.1 rfl
      (fun it hit => by
        have h2 : demoPlaceholder = it := Option.some.inj hit
        rw [← h2]
        rfl),
   (empty_id_select_noop demoFS searchModel).2.2.2.2 rfl⟩

/-- C4 counterexample: in the search view with a non-empty query buffer
and a selected result with non-empty id, enter submits a search fetch
instead of issuing the play side effect. -/
theorem search_enter_play_counterexample :
    searchModel.currentView = "search" ∧
    searchModel.searchList.selectedItem = some demoMovie ∧
    demoMovie.ID ≠ "" ∧
    (update demoFS searchModel (Msg.key "enter")).2.2
      = Cmd.search demoConfig "foo" ∧
    (update demoFS searchModel (Msg.key "enter")).2.2 ≠ Cmd.play demoMovie :=
  ⟨rfl, rfl, by decide, rfl, by decide⟩

/-- C4 (amended): enter on a selected record with non-empty id issues the
play side effect and changes nothing, in Episodes always, and in Search
only when the query buffer is empty — with a non-empty query buffer
enter submits the query as a search fetch instead. -/
theorem play_selection_rules (fs : FS) (m : Model) (item : MediaItem) :
    (m.currentView = "episodes" → m.episodesList.selectedItem = some item →
      item.ID ≠ "" →
      update fs m (Msg.key "enter") = (fs, m, Cmd.play item)) ∧
    (m.currentView = "search" → m.searchInput.value = "" →
      m.searchList.selectedItem = some item → item.ID ≠ "" →
      update fs m (Msg.key "enter") = (fs, m, Cmd.play item)) ∧
    (m.currentView = "search" → m.searchInput.value ≠ "" →
      update fs m (Msg.key "enter")
        = (fs, m, Cmd.search m.config m.searchInput.value)) :=
  ⟨update_enter_episodes_play fs m item,
   update_enter_search_play fs m item,
   update_enter_search_submit fs m⟩

/-- Witness for C4 (amended): play from Episodes, play from Search with
an empty query, and search submission with a non-empty query, all at
concrete states. -/
theorem play_selection_rules_witness :
    (update demoFS episodesModel (Msg.key "enter")
      = (demoFS, episodesModel, Cmd.play demoEpisode)) ∧
    (update demoFS searchReadyModel (Msg.key "enter")
      = (demoFS, searchReadyModel, Cmd.play demoMovie)) ∧
    (update demoFS searchModel (Msg.key "enter")
      = (demoFS, searchModel, Cmd.search demoConfig "foo")) :=
  ⟨(play_selection_rules demoFS episodesModel demoEpisode).1 rfl rfl (by decide),
   (play_selection_rules demoFS searchReadyModel demoMovie).2.1 rfl rfl rfl
      (by decide),
   (play_selection_rules demoFS searchModel demoMovie).2.2 rfl (by decide)⟩
